import Mathlib

/-!
Shallow embedding of the `iot-api` medication-dispenser core (`src/main.py`):
the compartment record model, validation rules, CRUD and state-transition
operations, the Adafruit webhook reconciler, and the dispensing log queries.

Conventions of the embedding:
* The SQLite store is a `Store` value threaded explicitly through each
  operation; an operation returning `.error` models an HTTP error response
  with the session rolled back (the handler reaches `session.commit()` only
  on the success path), so the caller keeps the unchanged store.
* Python `datetime` values are modelled as `Int` timestamps (seconds);
  `timedelta(days=1)` is `86400`.  Python `time`-of-day values are opaque
  `Nat` minutes.  `dateutil.parser.isoparse` and `datetime.fromisoformat`
  are external library calls, modelled as a `String → Option Int` parameter
  (`none` = the library raises).
* Python `str.lower` / `str.strip` are `pyLower` / `pyStrip`, written over
  the character list so that concrete instances reduce in the kernel.
* Error kinds mirror the HTTP statuses produced by the handlers:
  `invalidArgument` = `HTTPException(400)`, `notFound` = `HTTPException(404)`,
  `validationError` = FastAPI request-validation rejection (422),
  `internalError` = an unhandled exception escaping the handler (500).
-/

namespace IotApi

/-- Python `str.lower()` over the character list. -/
def pyLower (s : String) : String := String.mk (s.data.map Char.toLower)

/-- Python `str.strip()` (default: strip whitespace from both ends). -/
def pyStrip (s : String) : String :=
  String.mk (((s.data.dropWhile Char.isWhitespace).reverse.dropWhile Char.isWhitespace).reverse)

/-- Outcomes a handler can surface to the transport layer. -/
inductive ApiError where
  | invalidArgument
  | notFound
  | validationError
  | internalError
deriving Repr, DecidableEq

/-- Model `CompartmentBase` (main.py lines 31-48), with the SQLModel field defaults. -/
structure CompartmentBase where
  compartment_number : Int
  medicine_name : String
  number_of_medicines : Int := 0
  to_be_repeated : Bool := false
  morning_time : Option Nat := none
  afternoon_time : Option Nat := none
  evening_time : Option Nat := none
  time_if_not_repeated : Option Nat := none
  taken : Bool := false
  taken_at : Option Int := none
  low_stock : Bool := false
deriving Repr, DecidableEq

/-- Table model `Compartment(CompartmentBase, table=True)`: a persisted row.  The
primary key is always assigned by the time a row is visible in the store,
so `id` is `Nat` rather than `Option Nat`. -/
structure Compartment extends CompartmentBase where
  id : Nat
deriving Repr, DecidableEq

/-- Model `CompartmentCreate(CompartmentBase): pass`. -/
abbrev CompartmentCreate := CompartmentBase

/-- Model `CompartmentUpdate` (main.py lines 58-67).  Every field is wrapped in an
outer `Option` standing for pydantic field *presence* (`exclude_unset`);
the inner `Option` on the time fields is the value-level `None`.  Note the
model has no `compartment_number` field. -/
structure CompartmentUpdate where
  medicine_name : Option String := none
  number_of_medicines : Option Int := none
  to_be_repeated : Option Bool := none
  morning_time : Option (Option Nat) := none
  afternoon_time : Option (Option Nat) := none
  evening_time : Option (Option Nat) := none
  time_if_not_repeated : Option (Option Nat) := none
  taken : Option Bool := none
deriving Repr, DecidableEq

/-- Model `MedicineLog` (main.py lines 85-90). -/
structure MedicineLog where
  id : Nat
  compartment_number : Int
  medicine_name : String
  taken_at : Int
  action : String := "taken"
deriving Repr, DecidableEq

/-- Model `AdafruitData` (main.py lines 74-80). -/
structure AdafruitData where
  value : String
  feed_name : String
  feed_key : String := ""
  created_at : String
  updated_at : String := ""
  expiration : Int := 0
deriving Repr, DecidableEq

/-- The SQLite database: both tables plus the autoincrement counters. -/
structure Store where
  compartments : List Compartment := []
  logs : List MedicineLog := []
  next_compartment_id : Nat := 0
  next_log_id : Nat := 0
deriving Repr, DecidableEq

/-- The three `HTTPException(400)` checks of `create_compartment`
(main.py lines 132-148); `create_multiple_compartments` repeats them
verbatim per element (lines 189-205).  Python truthiness of an
`Optional[time]` is a `None` test (all `time` values are truthy). -/
def validate_create (c : CompartmentCreate) : Option ApiError :=
  if c.compartment_number ∉ ([1, 2, 3] : List Int) then some .invalidArgument
  else if ¬ c.to_be_repeated ∧ c.time_if_not_repeated = none then some .invalidArgument
  else if c.to_be_repeated ∧ c.time_if_not_repeated ≠ none then some .invalidArgument
  else none

/-- Handler `POST /compartments/createcompartment` (main.py lines 127-154). -/
def create_compartment (c : CompartmentCreate) (s : Store) :
    Except ApiError (Compartment × Store) :=
  match validate_create c with
  | some e => .error e
  | none =>
    let db : Compartment := ⟨c, s.next_compartment_id⟩
    .ok (db, { s with compartments := s.compartments ++ [db],
                      next_compartment_id := s.next_compartment_id + 1 })

/-- Handler `GET /compartments/` (main.py lines 157-164).  `limit` is declared
`Query(100, le=100)`: FastAPI rejects a request with `limit > 100` with a
validation error before the handler runs; otherwise the handler returns
the `offset`/`limit` slice in storage order. -/
def get_compartments (offset limit : Nat) (s : Store) :
    Except ApiError (List Compartment) :=
  if 100 < limit then .error .validationError
  else .ok ((s.compartments.drop offset).take limit)

/-- Handler `GET /compartments/{compartment_number}` (main.py lines 167-179). -/
def get_compartments_by_number (n : Int) (s : Store) :
    Except ApiError (List Compartment) :=
  if n ∉ ([1, 2, 3] : List Int) then .error .invalidArgument
  else .ok (s.compartments.filter (fun c => c.compartment_number == n))

/-- Loop body state of `create_multiple_compartments`: validated rows are
`session.add`ed (accumulated) but only merged into the store at the single
`session.commit()` after the loop; an exception before that commit rolls
everything back. -/
def create_multiple_aux (s : Store) (next_id : Nat) (acc : List Compartment) :
    List CompartmentCreate → Except ApiError (List Compartment × Store)
  | [] => .ok (acc, { s with compartments := s.compartments ++ acc,
                             next_compartment_id := next_id })
  | c :: rest =>
    match validate_create c with
    | some e => .error e
    | none => create_multiple_aux s (next_id + 1) (acc ++ [⟨c, next_id⟩]) rest

/-- Handler `POST /compartments/bulk-create` (main.py lines 181-216). -/
def create_multiple_compartments (cs : List CompartmentCreate) (s : Store) :
    Except ApiError (List Compartment × Store) :=
  create_multiple_aux s s.next_compartment_id [] cs

/-- Partial-update application `setattr(compartment, key, value)` per present key
(main.py lines 233-234): each field present in the payload overwrites the
stored field; absent fields are left untouched. -/
def applyUpdate (c : Compartment) (u : CompartmentUpdate) : Compartment :=
  { c with
    medicine_name := u.medicine_name.getD c.medicine_name,
    number_of_medicines := u.number_of_medicines.getD c.number_of_medicines,
    to_be_repeated := u.to_be_repeated.getD c.to_be_repeated,
    morning_time := u.morning_time.getD c.morning_time,
    afternoon_time := u.afternoon_time.getD c.afternoon_time,
    evening_time := u.evening_time.getD c.evening_time,
    time_if_not_repeated := u.time_if_not_repeated.getD c.time_if_not_repeated,
    taken := u.taken.getD c.taken }

/-- Replace the first list element satisfying `p` by its image under `f`
(the ORM mutates the single row returned by `.first()` / `session.get`). -/
def updateFirst (p : Compartment → Bool) (f : Compartment → Compartment) :
    List Compartment → List Compartment
  | [] => []
  | c :: cs => if p c then f c :: cs else c :: updateFirst p f cs

/-- Handler `PATCH /compartments/updatecompartment/{compartment_id}`
(main.py lines 218-239).  The handler checks `compartment_number` only when
that key is present in the payload; `CompartmentUpdate` has no such field, so
the branch is unreachable and no other validation is performed before the
fields are applied. -/
def update_compartment (cid : Nat) (u : CompartmentUpdate) (s : Store) :
    Except ApiError (Compartment × Store) :=
  match s.compartments.find? (fun c => c.id == cid) with
  | none => .error .notFound
  | some c =>
    .ok (applyUpdate c u,
         { s with compartments :=
             updateFirst (fun x => x.id == cid) (fun x => applyUpdate x u) s.compartments })

/-- Handler `DELETE /compartments/{compartment_number}/{medicine_name}`
(main.py lines 243-277). -/
def delete_medicine_from_compartment (n : Int) (name : String) (s : Store) :
    Except ApiError Store :=
  if n ∉ ([1, 2, 3] : List Int) then .error .invalidArgument
  else
    let found := s.compartments.filter
      (fun c => c.compartment_number == n && c.medicine_name == name)
    if found.isEmpty then .error .notFound
    else
      let remaining := s.compartments.filter
        (fun c => !(c.compartment_number == n && c.medicine_name == name))
      .ok { s with compartments := remaining }

/-- Handler `DELETE /compartments/` (main.py lines 279-286). -/
def delete_all_compartments (s : Store) : Store :=
  { s with compartments := [] }

/-- Handler `PATCH /compartments/{compartment_number}/mark-taken`
(main.py lines 294-322): validates the number, takes the first row with that
`compartment_number`, sets `taken = True` and nothing else. -/
def mark_medicine_taken (n : Int) (s : Store) :
    Except ApiError (Compartment × Store) :=
  if n ∉ ([1, 2, 3] : List Int) then .error .invalidArgument
  else
    match s.compartments.find? (fun c => c.compartment_number == n) with
    | none => .error .notFound
    | some c =>
      let comps := updateFirst (fun x => x.compartment_number == n)
        (fun x => { x with taken := true }) s.compartments
      .ok ({ c with taken := true }, { s with compartments := comps })

/-- Handler `PATCH /compartments/{compartment_number}/unmark-taken`
(main.py lines 325-342): note there is no `compartment_number ∈ {1,2,3}`
check in this handler; it goes straight to the lookup. -/
def unmark_medicine_taken (n : Int) (s : Store) :
    Except ApiError (Compartment × Store) :=
  match s.compartments.find? (fun c => c.compartment_number == n) with
  | none => .error .notFound
  | some c =>
    let comps := updateFirst (fun x => x.compartment_number == n)
      (fun x => { x with taken := false, taken_at := none }) s.compartments
    .ok ({ c with taken := false, taken_at := none }, { s with compartments := comps })

/-- Handler `GET /compartments/{compartment_number}/taken` (main.py lines 345-363). -/
def get_taken_medicines (n : Int) (s : Store) :
    Except ApiError (List Compartment) :=
  if n ∉ ([1, 2, 3] : List Int) then .error .invalidArgument
  else .ok (s.compartments.filter (fun c => c.compartment_number == n && c.taken == true))

/-- Handler `GET /compartments/{compartment_number}/pending` (main.py lines 366-384). -/
def get_pending_medicines (n : Int) (s : Store) :
    Except ApiError (List Compartment) :=
  if n ∉ ([1, 2, 3] : List Int) then .error .invalidArgument
  else .ok (s.compartments.filter (fun c => c.compartment_number == n && c.taken == false))

/-- The `feed_map` dictionary of `pill_taken_webhook` (main.py lines 394-398);
`feed_map.get` then `if not comp_num` is the `none` test (1,2,3 are truthy). -/
def feed_map (feed : String) : Option Int :=
  if feed == "comp1-taken" then some 1
  else if feed == "comp2-taken" then some 2
  else if feed == "comp3-taken" then some 3
  else none

inductive WebhookOutcome where
  | updated (comp_num : Int) (new_count : Int) (low_stock : Bool)
  | noop
deriving Repr, DecidableEq

/-- The row mutation of main.py lines 411-415: decrement, clamp at 0 with
`max`, set `taken`, record the parsed timestamp, recompute `low_stock`. -/
def processTaken (c : Compartment) (ts : Int) : Compartment :=
  let n := max (c.number_of_medicines - 1) 0
  { c with number_of_medicines := n, taken := true, taken_at := some ts,
           low_stock := decide (n < 4) }

/-- Handler `POST /adafruit-taken-webhook/` (main.py lines 389-435).  `isoparse` is
the external `dateutil.parser.isoparse`; the handler calls it with **no**
try/except, so `none` (= the library raising) aborts the request with an
unhandled exception and the uncommitted row mutations are rolled back. -/
def pill_taken_webhook (isoparse : String → Option Int) (s : Store) :
    List AdafruitData → Except ApiError (WebhookOutcome × Store)
  | [] => .ok (.noop, s)
  | entry :: rest =>
    match feed_map (pyLower entry.feed_name) with
    | none => pill_taken_webhook isoparse s rest
    | some comp_num =>
      match s.compartments.find? (fun c => c.compartment_number == comp_num) with
      | none => pill_taken_webhook isoparse s rest
      | some comp =>
        if pyStrip entry.value == "1" then
          match isoparse entry.created_at with
          | none => .error .internalError
          | some ts =>
            let comp' := processTaken comp ts
            let log : MedicineLog :=
              { id := s.next_log_id, compartment_number := comp'.compartment_number,
                medicine_name := comp'.medicine_name, taken_at := ts, action := "taken" }
            let comps := updateFirst (fun c => c.compartment_number == comp_num)
              (fun c => processTaken c ts) s.compartments
            .ok (.updated comp_num comp'.number_of_medicines comp'.low_stock,
                 { s with compartments := comps, logs := s.logs ++ [log],
                          next_log_id := s.next_log_id + 1 })
        else
          pill_taken_webhook isoparse s rest

/-- Comparator for `ORDER BY taken_at` ascending. -/
def logLe (a b : MedicineLog) : Bool := decide (a.taken_at ≤ b.taken_at)

/-- Handler `GET /logs/` (main.py lines 438-440). -/
def get_all_logs (s : Store) : List MedicineLog :=
  s.logs.mergeSort (fun a b => decide (b.taken_at ≤ a.taken_at))

/-- Handler `GET /logs/by-day/{date}` (main.py lines 442-458).  `fromiso` is
`datetime.fromisoformat`; the bare `except` turns a parse failure into
`HTTPException(400)`.  `day_end = day_start + timedelta(days=1)`. -/
def get_logs_by_day (fromiso : String → Option Int) (date : String) (s : Store) :
    Except ApiError (List MedicineLog) :=
  match fromiso date with
  | none => .error .invalidArgument
  | some day_start =>
    let day_end := day_start + 86400
    .ok ((s.logs.filter
          (fun l => decide (day_start ≤ l.taken_at) && decide (l.taken_at < day_end))).mergeSort logLe)

/-- The repeat-schedule invariant of spec §3: `to_be_repeated == false`
iff `time_if_not_repeated` is present. -/
def repeatInvariant (c : CompartmentBase) : Prop :=
  (c.to_be_repeated = false) ↔ c.time_if_not_repeated.isSome

/-- Predicate for when an event triggers the webhook update: its lower-cased feed name maps
to a compartment number, the store holds a row with that number, and the
stripped value is `"1"` (the conjunction of the branch conditions of
main.py lines 399-410). -/
def triggers (s : Store) (e : AdafruitData) : Bool :=
  (match feed_map (pyLower e.feed_name) with
   | some n => (s.compartments.find? (fun c => c.compartment_number == n)).isSome
   | none => false) && (pyStrip e.value == "1")

/-- The rows `create_multiple_compartments` persists on full success:
one per payload, ids assigned sequentially from `next_id`. -/
def mkRows (next_id : Nat) : List CompartmentCreate → List Compartment
  | [] => []
  | c :: rest => ⟨c, next_id⟩ :: mkRows (next_id + 1) rest

/- Concrete fixtures used by witnesses and counterexamples. -/

/-- A repeated medicine in compartment 1 with plenty of stock. -/
def medA : Compartment :=
  ⟨{ compartment_number := 1, medicine_name := "Paracetamol",
     number_of_medicines := 10, to_be_repeated := true, morning_time := some 480 }, 0⟩

def storeA : Store := { compartments := [medA], next_compartment_id := 1 }

/-- A valid create payload with zero remaining doses. -/
def payload0 : CompartmentCreate :=
  { compartment_number := 1, medicine_name := "VitaminD",
    number_of_medicines := 0, to_be_repeated := true }

/-- The store after creating `payload0` in an empty database. -/
def store0 : Store := { compartments := [⟨payload0, 0⟩], next_compartment_id := 1 }

/-- A non-repeated medicine (so `time_if_not_repeated` is present). -/
def medNR : Compartment :=
  ⟨{ compartment_number := 1, medicine_name := "Antibiotic",
     number_of_medicines := 5, to_be_repeated := false,
     time_if_not_repeated := some 720 }, 0⟩

def storeNR : Store := { compartments := [medNR], next_compartment_id := 1 }

/-- A partial update flipping only `to_be_repeated` to `True`. -/
def updRepeat : CompartmentUpdate := { to_be_repeated := some true }

/-- An event on an unmapped feed. -/
def evIgnored : AdafruitData :=
  { value := "1", feed_name := "humidity", created_at := "2024-01-01T08:00:00Z" }

/-- An event on compartment 1 with value `"1"`. -/
def evTaken : AdafruitData :=
  { value := " 1 ", feed_name := "Comp1-Taken", created_at := "2024-01-01T09:00:00Z" }

/-- A later event in the same batch that must never be examined. -/
def evLater : AdafruitData :=
  { value := "1", feed_name := "comp1-taken", created_at := "2024-01-01T10:00:00Z" }

/-- An event whose timestamp the parser rejects. -/
def evBadTs : AdafruitData :=
  { value := "1", feed_name := "comp1-taken", created_at := "not-a-timestamp" }

/-- A parser stub accepting everything (timestamp 100). -/
def isoW : String → Option Int := fun _ => some 100

/-- A parser stub rejecting everything (`isoparse` raises). -/
def isoFail : String → Option Int := fun _ => none

/-- A parser stub mapping every date string to the day start 0. -/
def isoDay : String → Option Int := fun _ => some 0

/-- A bulk payload with an out-of-range compartment number. -/
def payloadBad : CompartmentCreate :=
  { compartment_number := 7, medicine_name := "Ibuprofen", to_be_repeated := true }

/-- Log fixtures for the by-day query: one entry exactly at the day start,
one inside the day (listed out of order), one exactly at the next day start. -/
def logStart : MedicineLog :=
  { id := 0, compartment_number := 1, medicine_name := "Paracetamol", taken_at := 0 }

def logMid : MedicineLog :=
  { id := 1, compartment_number := 2, medicine_name := "Ibuprofen", taken_at := 50 }

def logNextDay : MedicineLog :=
  { id := 2, compartment_number := 1, medicine_name := "Paracetamol", taken_at := 86400 }

def storeLogs : Store := { logs := [logMid, logNextDay, logStart], next_log_id := 3 }

/- Helper lemmas. -/

/-- If `find?` locates a row, the list splits around that row, every earlier
row fails the predicate, and `updateFirst` rewrites exactly that row. -/
theorem updateFirst_split (p : Compartment → Bool) (f : Compartment → Compartment) :
    ∀ (l : List Compartment) (c : Compartment), l.find? p = some c →
      ∃ l1 l2, l = l1 ++ c :: l2 ∧ (∀ x ∈ l1, p x = false) ∧
        updateFirst p f l = l1 ++ f c :: l2 := by
  intro l
  induction l with
  | nil => intro c h; simp at h
  | cons a l ih =>
    intro c h
    by_cases hp : p a
    · rw [List.find?_cons_of_pos _ hp] at h
      cases h
      exact ⟨[], l, rfl, by simp, by simp [updateFirst, hp]⟩
    · rw [List.find?_cons_of_neg _ hp] at h
      obtain ⟨l1, l2, hl, hskip, hupd⟩ := ih c h
      refine ⟨a :: l1, l2, by simp [hl], ?_, by simp [updateFirst, hp, hupd]⟩
      intro x hx
      rcases List.mem_cons.mp hx with hx | hx
      · subst hx; simpa using hp
      · exact hskip x hx

/-- Validation only ever produces `invalidArgument`. -/
theorem validate_create_eq (c : CompartmentCreate) :
    validate_create c = none ∨ validate_create c = some .invalidArgument := by
  unfold validate_create
  split
  · exact Or.inr rfl
  · split
    · exact Or.inr rfl
    · split
      · exact Or.inr rfl
      · exact Or.inl rfl

/-! ### C4 -/

/-- C4 counterexample: the claim says UnmarkTaken(5) fails `InvalidArgument`
regardless of the store; on the empty store it fails `NotFound` instead
(the handler has no compartment-number check). -/
theorem C4_counterexample :
    unmark_medicine_taken 5 {} = .error .notFound ∧
      ApiError.notFound ≠ ApiError.invalidArgument :=
  ⟨rfl, by decide⟩

/-- C4 (amended): for `n ∉ {1,2,3}`, GetByNumber, MarkTaken, ListTaken,
ListPending and DeleteByMedicine fail `InvalidArgument` regardless of the
store; UnmarkTaken performs no number validation and instead fails
`NotFound` whenever no stored row carries that number. -/
theorem C4_invalid_number (n : Int) (name : String) (s : Store)
    (hn : n ∉ ([1, 2, 3] : List Int)) :
    get_compartments_by_number n s = .error .invalidArgument ∧
    mark_medicine_taken n s = .error .invalidArgument ∧
    get_taken_medicines n s = .error .invalidArgument ∧
    get_pending_medicines n s = .error .invalidArgument ∧
    delete_medicine_from_compartment n name s = .error .invalidArgument ∧
    (s.compartments.find? (fun c => c.compartment_number == n) = none →
      unmark_medicine_taken n s = .error .notFound) := by
  refine ⟨?_, ?_, ?_, ?_, ?_, ?_⟩
  · simp [get_compartments_by_number, hn]
  · simp [mark_medicine_taken, hn]
  · simp [get_taken_medicines, hn]
  · simp [get_pending_medicines, hn]
  · simp [delete_medicine_from_compartment, hn]
  · intro h
    simp [unmark_medicine_taken, h]

/-- C4 witness: the amended theorem applied at `n = 5` on the empty store. -/
theorem C4_witness :
    mark_medicine_taken 5 {} = .error .invalidArgument :=
  (C4_invalid_number 5 ("Ibuprofen") {} (by decide)).2.1

/-! ### C5 -/

/-- C5 counterexample: creating `payload0` (count 0, `low_stock` left at its
default `False`) and reading compartment 1 back yields exactly one record,
whose `low_stock` is `False` even though `number_of_medicines < 4`: creation
never derives `low_stock`. -/
theorem C5_counterexample :
    create_compartment payload0 {} = .ok (⟨payload0, 0⟩, store0) ∧
    get_compartments_by_number 1 store0 = .ok [⟨payload0, 0⟩] ∧
    (⟨payload0, 0⟩ : Compartment).low_stock = false ∧
    payload0.number_of_medicines < 4 :=
  ⟨rfl, rfl, rfl, by decide⟩

/-- C5 (amended): for every valid payload, Create followed by GetByNumber
returns a list containing the created record, whose fields — `low_stock`
included — equal those of the payload verbatim; `low_stock` is stored as supplied,
not derived from `number_of_medicines`. -/
theorem C5_create_roundtrip (p : CompartmentCreate) (s : Store)
    (hv : validate_create p = none) :
    ∃ r st, create_compartment p s = .ok (r, st) ∧
      r.toCompartmentBase = p ∧ r.low_stock = p.low_stock ∧
      ∃ l, get_compartments_by_number p.compartment_number st = .ok l ∧ r ∈ l := by
  have hmem : p.compartment_number ∈ ([1, 2, 3] : List Int) := by
    by_contra hnot
    simp [validate_create, hnot] at hv
  refine ⟨⟨p, s.next_compartment_id⟩,
    { s with compartments := s.compartments ++ [⟨p, s.next_compartment_id⟩],
             next_compartment_id := s.next_compartment_id + 1 }, ?_, rfl, rfl, ?_⟩
  · simp [create_compartment, hv]
  · refine ⟨(s.compartments ++ [(⟨p, s.next_compartment_id⟩ : Compartment)]).filter
      (fun c => c.compartment_number == p.compartment_number), ?_, ?_⟩
    · simp [get_compartments_by_number, hmem]
    · simp [List.mem_filter]

/-- C5 witness: the amended round trip at `payload0` on the empty store. -/
theorem C5_witness :
    validate_create payload0 = none ∧
    ∃ r st, create_compartment payload0 {} = .ok (r, st) ∧
      r.toCompartmentBase = payload0 ∧ r.low_stock = payload0.low_stock ∧
      ∃ l, get_compartments_by_number payload0.compartment_number st = .ok l ∧ r ∈ l :=
  ⟨rfl, C5_create_roundtrip payload0 {} rfl⟩

/-! ### C6 -/

/-- C6 counterexample: the claim says every requested limit is served capped
at 100; a request with `limit = 200` is instead rejected by the
`Query(100, le=100)` constraint with a validation error. -/
theorem C6_counterexample :
    get_compartments 0 200 {} = .error .validationError :=
  rfl

/-- C6 (amended): List succeeds and returns the storage-order slice for every
`limit ≤ 100`; a request with `limit > 100` is rejected with a validation
error rather than served as if the limit were 100. -/
theorem C6_list_slices (offset limit : Nat) (s : Store) :
    (limit ≤ 100 →
      get_compartments offset limit s = .ok ((s.compartments.drop offset).take limit)) ∧
    (100 < limit → get_compartments offset limit s = .error .validationError) := by
  constructor
  · intro h
    have hlt : ¬ 100 < limit := by omega
    simp [get_compartments, hlt]
  · intro h
    simp [get_compartments, h]

/-- C6 witness: the amended theorem applied at `offset = 0`, `limit = 1`. -/
theorem C6_witness : get_compartments 0 1 storeA = .ok [medA] :=
  (C6_list_slices 0 1 storeA).1 (by decide)

/-! ### C2 -/

/-- C2 counterexample: `storeNR` holds a record with `to_be_repeated = False`
and `time_if_not_repeated` present; the partial update `updRepeat` flips
`to_be_repeated` to `True`, leaving the record violating the repeat-schedule
invariant — yet Update succeeds and the store changes, instead of failing
`InvalidArgument` with the record untouched. -/
theorem C2_counterexample :
    ¬ repeatInvariant (applyUpdate medNR updRepeat).toCompartmentBase ∧
    update_compartment 0 updRepeat storeNR =
      .ok (applyUpdate medNR updRepeat,
           { storeNR with compartments := [applyUpdate medNR updRepeat] }) ∧
    applyUpdate medNR updRepeat ≠ medNR :=
  ⟨by unfold repeatInvariant; decide, rfl, by decide⟩

/-- C2 (amended): Update re-validates nothing relevant — the only check in
the handler guards a `compartment_number` key the update model cannot carry —
so whenever the target id exists, every supplied field is applied verbatim
and the operation succeeds, even when the resulting record violates the
repeat-schedule invariant. -/
theorem C2_update_no_revalidation (cid : Nat) (u : CompartmentUpdate) (s : Store)
    (c : Compartment) (hf : s.compartments.find? (fun x => x.id == cid) = some c) :
    ∃ l1 l2, s.compartments = l1 ++ c :: l2 ∧
      update_compartment cid u s =
        .ok (applyUpdate c u, { s with compartments := l1 ++ applyUpdate c u :: l2 }) := by
  obtain ⟨l1, l2, hl, -, hupd⟩ :=
    updateFirst_split (fun x => x.id == cid) (fun x => applyUpdate x u) s.compartments c hf
  exact ⟨l1, l2, hl, by simp [update_compartment, hf, hupd]⟩

/-- C2 witness: the amended theorem applied to `storeNR` and `updRepeat`,
an update that leaves the record violating the invariant. -/
theorem C2_witness :
    storeNR.compartments.find? (fun x => x.id == 0) = some medNR ∧
    ∃ l1 l2, storeNR.compartments = l1 ++ medNR :: l2 ∧
      update_compartment 0 updRepeat storeNR =
        .ok (applyUpdate medNR updRepeat,
             { storeNR with compartments := l1 ++ applyUpdate medNR updRepeat :: l2 }) :=
  ⟨rfl, C2_update_no_revalidation 0 updRepeat storeNR medNR rfl⟩

/-! ### C3 -/

/-- C3: the claim (and spec) says an unparseable `created_at` degrades to
"now" and the update still completes.  The handler calls
`parser.isoparse(entry.created_at)` with no try/except, so the event that
maps to an existing compartment and carries value `"1"` but an unparseable
timestamp makes the request fail with an unhandled exception, the uncommitted
mutation rolled back — no fallback, no completed update. -/
theorem C3_unparseable_timestamp_raises :
    pill_taken_webhook isoFail storeA [evBadTs] = .error .internalError :=
  rfl

/-! ### C7 -/

/-- C7: when a webhook event maps to compartment `n`, the first stored row
with that number is `c`, the stripped value is `"1"` and the timestamp
parses, the persisted row is `processTaken c ts`: the count is decremented
clamped at 0 (never negative), `taken` is set, and `low_stock` is recomputed
from the new count; a count of 5 becomes 4 with `low_stock = False`. -/
theorem C7_webhook_mutation (isoparse : String → Option Int) (s : Store)
    (e : AdafruitData) (n : Int) (c : Compartment) (ts : Int)
    (hf : feed_map (pyLower e.feed_name) = some n)
    (hc : s.compartments.find? (fun x => x.compartment_number == n) = some c)
    (hv : pyStrip e.value = "1")
    (hts : isoparse e.created_at = some ts) :
    ∃ st, pill_taken_webhook isoparse s [e] =
        .ok (.updated n (processTaken c ts).number_of_medicines
              (processTaken c ts).low_stock, st) ∧
      st.compartments =
        updateFirst (fun x => x.compartment_number == n)
          (fun x => processTaken x ts) s.compartments ∧
      (processTaken c ts).number_of_medicines = max (c.number_of_medicines - 1) 0 ∧
      0 ≤ (processTaken c ts).number_of_medicines ∧
      (processTaken c ts).taken = true ∧
      (processTaken c ts).low_stock =
        decide ((processTaken c ts).number_of_medicines < 4) ∧
      (c.number_of_medicines = 0 → (processTaken c ts).number_of_medicines = 0) ∧
      (c.number_of_medicines = 5 →
        (processTaken c ts).number_of_medicines = 4 ∧
          (processTaken c ts).low_stock = false) := by
  refine ⟨⟨updateFirst (fun x => x.compartment_number == n)
      (fun x => processTaken x ts) s.compartments,
    s.logs ++ [⟨s.next_log_id, (processTaken c ts).compartment_number,
      (processTaken c ts).medicine_name, ts, "taken"⟩],
    s.next_compartment_id, s.next_log_id + 1⟩,
    ?_, rfl, rfl, le_max_right _ _, rfl, rfl, ?_, ?_⟩
  · unfold pill_taken_webhook
    simp [hf, hc, hv, hts]
  · intro h
    simp [processTaken, h]
  · intro h
    constructor <;> simp [processTaken, h]

/-- C7 witness: the mutation theorem applied to `evTaken` (feed
`"Comp1-Taken"`, value `" 1 "`) against `storeA` (compartment 1, count 10). -/
theorem C7_witness :
    ∃ st, pill_taken_webhook isoW storeA [evTaken] =
        .ok (.updated 1 (processTaken medA 100).number_of_medicines
              (processTaken medA 100).low_stock, st) ∧
      st.compartments =
        updateFirst (fun x => x.compartment_number == 1)
          (fun x => processTaken x 100) storeA.compartments ∧
      (processTaken medA 100).number_of_medicines = max (medA.number_of_medicines - 1) 0 ∧
      0 ≤ (processTaken medA 100).number_of_medicines ∧
      (processTaken medA 100).taken = true ∧
      (processTaken medA 100).low_stock =
        decide ((processTaken medA 100).number_of_medicines < 4) ∧
      (medA.number_of_medicines = 0 → (processTaken medA 100).number_of_medicines = 0) ∧
      (medA.number_of_medicines = 5 →
        (processTaken medA 100).number_of_medicines = 4 ∧
          (processTaken medA 100).low_stock = false) :=
  C7_webhook_mutation isoW storeA evTaken 1 medA 100 (by decide) rfl (by decide) rfl

/-! ### C9 -/

/-- Rewriting the first match with a function that fixes it leaves the list
unchanged. -/
theorem updateFirst_fix (p : Compartment → Bool) (f : Compartment → Compartment)
    (l : List Compartment) (c : Compartment) (hf : l.find? p = some c)
    (hfix : f c = c) : updateFirst p f l = l := by
  obtain ⟨l1, l2, hl, -, hupd⟩ := updateFirst_split p f l c hf
  rw [hupd, hfix, ← hl]

/-- C9: MarkTaken(n) flips `taken` on the first row with number `n` and
nothing else — every other field of that row (in particular `taken_at`) and
every other row is untouched; UnmarkTaken(n) on a row that already has
`taken = False` and `taken_at = None` succeeds and changes nothing at all. -/
theorem C9_mark_frame_unmark_idempotent (n : Int) (s : Store) (c : Compartment)
    (hn : n ∈ ([1, 2, 3] : List Int))
    (hf : s.compartments.find? (fun x => x.compartment_number == n) = some c) :
    (∃ l1 l2, s.compartments = l1 ++ c :: l2 ∧
       (∀ x ∈ l1, (x.compartment_number == n) = false) ∧
       mark_medicine_taken n s =
         .ok ({ c with taken := true },
              { s with compartments := l1 ++ { c with taken := true } :: l2 })) ∧
    ({ c with taken := true } : Compartment).taken = true ∧
    ({ c with taken := true } : Compartment).compartment_number = c.compartment_number ∧
    ({ c with taken := true } : Compartment).medicine_name = c.medicine_name ∧
    ({ c with taken := true } : Compartment).number_of_medicines = c.number_of_medicines ∧
    ({ c with taken := true } : Compartment).to_be_repeated = c.to_be_repeated ∧
    ({ c with taken := true } : Compartment).morning_time = c.morning_time ∧
    ({ c with taken := true } : Compartment).afternoon_time = c.afternoon_time ∧
    ({ c with taken := true } : Compartment).evening_time = c.evening_time ∧
    ({ c with taken := true } : Compartment).time_if_not_repeated = c.time_if_not_repeated ∧
    ({ c with taken := true } : Compartment).taken_at = c.taken_at ∧
    ({ c with taken := true } : Compartment).low_stock = c.low_stock ∧
    ({ c with taken := true } : Compartment).id = c.id ∧
    (c.taken = false → c.taken_at = none → unmark_medicine_taken n s = .ok (c, s)) := by
  obtain ⟨l1, l2, hl, hskip, hupd⟩ :=
    updateFirst_split (fun x => x.compartment_number == n)
      (fun x => { x with taken := true }) s.compartments c hf
  refine ⟨⟨l1, l2, hl, hskip, ?_⟩, rfl, rfl, rfl, rfl, rfl, rfl, rfl, rfl, rfl, rfl,
    rfl, rfl, ?_⟩
  · simp [mark_medicine_taken, hn, hf, hupd]
  · intro ht hta
    have hkeep : ({ c with taken := false, taken_at := none } : Compartment) = c := by
      rcases c with ⟨⟨f1, f2, f3, f4, f5, f6, f7, f8, tk, ta, f11⟩, cid⟩
      simp at ht hta
      simp [ht, hta]
    have hu := updateFirst_fix (fun x => x.compartment_number == n)
      (fun x => { x with taken := false, taken_at := none }) s.compartments c hf hkeep
    simp [unmark_medicine_taken, hf, hu, hkeep]

/-- C9 witness: the theorem applied at `n = 1` on `storeA`, whose only
record is untaken with `taken_at = None`. -/
theorem C9_witness :
    unmark_medicine_taken 1 storeA = .ok (medA, storeA) :=
  (C9_mark_frame_unmark_idempotent 1 storeA medA (by decide) rfl).2.2.2.2.2.2.2.2.2.2.2.2.2
    rfl rfl

/-! ### C10 -/

/-- The rows built by a fully valid bulk create carry exactly the payloads. -/
theorem mkRows_map_base : ∀ (cs : List CompartmentCreate) (k : Nat),
    (mkRows k cs).map (fun r => r.toCompartmentBase) = cs
  | [], _ => rfl
  | c :: rest, k => by simp [mkRows, mkRows_map_base rest (k + 1)]

/-- The rows built by a fully valid bulk create get sequential ids. -/
theorem mkRows_map_id : ∀ (cs : List CompartmentCreate) (k : Nat),
    (mkRows k cs).map (fun r => r.id) = List.range' k cs.length
  | [], _ => rfl
  | c :: rest, k => by
    simp [mkRows, mkRows_map_id rest (k + 1), List.range'_succ]

/-- Loop invariant of the bulk-create success path. -/
theorem create_multiple_aux_ok (s : Store) :
    ∀ (cs : List CompartmentCreate) (k : Nat) (acc : List Compartment),
      (∀ c ∈ cs, validate_create c = none) →
      create_multiple_aux s k acc cs =
        .ok (acc ++ mkRows k cs,
             { s with compartments := s.compartments ++ (acc ++ mkRows k cs),
                      next_compartment_id := k + cs.length })
  | [], k, acc, _ => by simp [create_multiple_aux, mkRows]
  | c :: rest, k, acc, h => by
    have hc := h c (List.mem_cons_self c rest)
    have ih := create_multiple_aux_ok s rest (k + 1) (acc ++ [⟨c, k⟩])
      (fun x hx => h x (List.mem_cons_of_mem c hx))
    simp [create_multiple_aux, hc, ih, mkRows]
    omega

/-- Loop invariant of the bulk-create failure path: a single invalid payload
anywhere in the batch aborts the whole request before the commit. -/
theorem create_multiple_aux_err (s : Store) :
    ∀ (cs : List CompartmentCreate) (k : Nat) (acc : List Compartment),
      (∃ c ∈ cs, validate_create c ≠ none) →
      create_multiple_aux s k acc cs = .error .invalidArgument
  | [], _, _, h => by simp at h
  | c :: rest, k, acc, h => by
    rcases hval : validate_create c with _ | e
    · have : ∃ x ∈ rest, validate_create x ≠ none := by
        rcases h with ⟨x, hx, hxv⟩
        rcases List.mem_cons.mp hx with rfl | hx
        · exact absurd hval hxv
        · exact ⟨x, hx, hxv⟩
      simp [create_multiple_aux, hval,
        create_multiple_aux_err s rest (k + 1) (acc ++ [⟨c, k⟩]) this]
    · rcases validate_create_eq c with h0 | h0
      · rw [hval] at h0; cases h0
      · rw [hval] at h0
        cases h0
        simp [create_multiple_aux, hval]

/-- C10: bulk create is all-or-nothing.  If every payload validates, the
operation succeeds, appends one row per payload (fields verbatim, ids
assigned sequentially) in one commit; if any payload is invalid the whole
request fails `InvalidArgument` and nothing — earlier valid payloads
included — reaches the store. -/
theorem C10_bulk_all_or_nothing (cs : List CompartmentCreate) (s : Store) :
    ((∀ c ∈ cs, validate_create c = none) →
       create_multiple_compartments cs s =
         .ok (mkRows s.next_compartment_id cs,
              { s with compartments := s.compartments ++ mkRows s.next_compartment_id cs,
                       next_compartment_id := s.next_compartment_id + cs.length }) ∧
       (mkRows s.next_compartment_id cs).map (fun r => r.toCompartmentBase) = cs ∧
       (mkRows s.next_compartment_id cs).map (fun r => r.id) =
         List.range' s.next_compartment_id cs.length) ∧
    ((∃ c ∈ cs, validate_create c ≠ none) →
       create_multiple_compartments cs s = .error .invalidArgument) := by
  constructor
  · intro h
    refine ⟨?_, mkRows_map_base cs _, mkRows_map_id cs _⟩
    have hok := create_multiple_aux_ok s cs s.next_compartment_id [] h
    simpa [create_multiple_compartments] using hok
  · intro h
    exact create_multiple_aux_err s cs s.next_compartment_id [] h

/-- C10 witness: a batch holding one valid and one invalid payload is
rejected whole. -/
theorem C10_witness :
    create_multiple_compartments [payload0, payloadBad] {} = .error .invalidArgument :=
  (C10_bulk_all_or_nothing [payload0, payloadBad] {}).2 ⟨payloadBad, by decide, by decide⟩

/-! ### C8 -/

theorem logLe_trans : ∀ a b c : MedicineLog,
    logLe a b = true → logLe b c = true → logLe a c = true := by
  intro a b c hab hbc
  simp [logLe] at hab hbc ⊢
  omega

theorem logLe_total : ∀ a b : MedicineLog, (logLe a b || logLe b a) = true := by
  intro a b
  simp [logLe]
  omega

/-- C8: on an unparseable date string the by-day query fails
`InvalidArgument`; on a parsed day start `d` it returns exactly the log
entries with `taken_at` in the half-open interval `[d, d + 24h)` — the left
endpoint included, the right endpoint excluded — ordered ascending by
`taken_at`. -/
theorem C8_logs_by_day (fromiso : String → Option Int) (date : String) (s : Store) :
    (fromiso date = none → get_logs_by_day fromiso date s = .error .invalidArgument) ∧
    (∀ d, fromiso date = some d →
      ∃ l, get_logs_by_day fromiso date s = .ok l ∧
        (∀ e, e ∈ l ↔ (e ∈ s.logs ∧ d ≤ e.taken_at ∧ e.taken_at < d + 86400)) ∧
        l.Pairwise (fun a b => a.taken_at ≤ b.taken_at)) := by
  constructor
  · intro h
    simp [get_logs_by_day, h]
  · intro d hd
    refine ⟨(s.logs.filter
        (fun l => decide (d ≤ l.taken_at) && decide (l.taken_at < d + 86400))).mergeSort logLe,
      ?_, ?_, ?_⟩
    · simp [get_logs_by_day, hd]
    · intro e
      rw [List.mem_mergeSort, List.mem_filter]
      simp
    · exact (List.sorted_mergeSort logLe_trans logLe_total _).imp
        (fun h => by simpa [logLe] using h)

/-- C8 witness: day start 0 against `storeLogs`; the entry at exactly 0 is
kept, the entry at exactly 86400 is dropped, and the result is ascending. -/
theorem C8_witness :
    ∃ l, get_logs_by_day isoDay ("2024-01-01") storeLogs = .ok l ∧
      (∀ e, e ∈ l ↔ (e ∈ storeLogs.logs ∧ 0 ≤ e.taken_at ∧ e.taken_at < 0 + 86400)) ∧
      l.Pairwise (fun a b => a.taken_at ≤ b.taken_at) :=
  (C8_logs_by_day isoDay ("2024-01-01") storeLogs).2 0 rfl

/-! ### C1 -/

/-- An event that does not trigger (unmapped feed, no stored row, or value
other than `"1"`) is passed over with the store untouched. -/
theorem webhook_skip (isoparse : String → Option Int) (s : Store)
    (e : AdafruitData) (rest : List AdafruitData) (h : triggers s e = false) :
    pill_taken_webhook isoparse s (e :: rest) = pill_taken_webhook isoparse s rest := by
  unfold triggers at h
  cases hf : feed_map (pyLower e.feed_name) with
  | none => simp [pill_taken_webhook, hf]
  | some n =>
    rw [hf] at h
    cases hc : s.compartments.find? (fun c => c.compartment_number == n) with
    | none => simp [pill_taken_webhook, hf, hc]
    | some c =>
      simp [hc] at h
      simp [pill_taken_webhook, hf, hc, h]

/-- Once an event triggers, the events after it play no role. -/
theorem webhook_fire (isoparse : String → Option Int) (s : Store)
    (e : AdafruitData) (rest : List AdafruitData) (h : triggers s e = true) :
    pill_taken_webhook isoparse s (e :: rest) = pill_taken_webhook isoparse s [e] := by
  unfold triggers at h
  cases hf : feed_map (pyLower e.feed_name) with
  | none => rw [hf] at h; simp at h
  | some n =>
    rw [hf] at h
    cases hc : s.compartments.find? (fun c => c.compartment_number == n) with
    | none => simp [hc] at h
    | some c =>
      simp [hc] at h
      simp [pill_taken_webhook, hf, hc, h]

/-- C1: the reconciler scans the batch in order.  If no event both maps to a
compartment with a stored row and carries stripped value `"1"`, it returns
the no-op result with the store unchanged; and the batch is processed exactly
as if it were cut right after the first such event — the events after it are
never examined. -/
theorem C1_webhook_short_circuit (isoparse : String → Option Int) (s : Store) :
    (∀ events : List AdafruitData, (∀ e ∈ events, triggers s e = false) →
       pill_taken_webhook isoparse s events = .ok (.noop, s)) ∧
    (∀ (pre : List AdafruitData) (e : AdafruitData) (post : List AdafruitData),
       (∀ x ∈ pre, triggers s x = false) → triggers s e = true →
       pill_taken_webhook isoparse s (pre ++ e :: post) =
         pill_taken_webhook isoparse s (pre ++ [e])) := by
  constructor
  · intro events
    induction events with
    | nil => intro _; rfl
    | cons a l ih =>
      intro h
      rw [webhook_skip isoparse s a l (h a (List.mem_cons_self a l))]
      exact ih (fun x hx => h x (List.mem_cons_of_mem a hx))
  · intro pre
    induction pre with
    | nil =>
      intro e post _ he
      simpa using webhook_fire isoparse s e post he
    | cons a pre ih =>
      intro e post h he
      have ha := h a (List.mem_cons_self a pre)
      simp only [List.cons_append]
      rw [webhook_skip isoparse s a _ ha, webhook_skip isoparse s a _ ha]
      exact ih e post (fun x hx => h x (List.mem_cons_of_mem a hx)) he

/-- C1 witness: in the batch `[evIgnored, evTaken, evLater]` the unmapped
event is skipped, `evTaken` triggers, and the trailing event is never
examined: the batch behaves as `[evIgnored, evTaken]`. -/
theorem C1_witness :
    pill_taken_webhook isoW storeA ([evIgnored] ++ evTaken :: [evLater]) =
      pill_taken_webhook isoW storeA ([evIgnored] ++ [evTaken]) :=
  (C1_webhook_short_circuit isoW storeA).2 [evIgnored] evTaken [evLater]
    (by decide) (by decide)

end IotApi


